import Mathlib

/-!
Verification of the pitch-deck analysis pipeline of the repository
(`src/api/generate-idea/route.ts` and `src/app/api/generate-idea/route.ts`),
shallowly embedded in Lean 4.

JavaScript numbers are modelled as `ℚ`; a possibly-NaN JavaScript number is
modelled as `Option ℚ` with `none` standing for NaN (or `undefined` entering
arithmetic, which yields NaN).  Strings are modelled as `String` / `List Char`.
A JSON field that may be absent (`undefined`) is modelled as an `Option`.
-/

namespace CodeberryModel

/-! ## Sentiment scorer (`performSentimentAnalysis`, src/api/generate-idea/route.ts:421-452) -/

/-- Characters matched by the JavaScript regex class `\s`. -/
def jsIsSpace (c : Char) : Bool :=
  c = ' ' || c = '\t' || c = '\n' || c = '\r' || c.val = 0x0b || c.val = 0x0c ||
  c.val = 0xa0 || c.val = 0x1680 || (0x2000 ≤ c.val && c.val ≤ 0x200a) ||
  c.val = 0x2028 || c.val = 0x2029 || c.val = 0x202f || c.val = 0x205f ||
  c.val = 0x3000 || c.val = 0xfeff

/-- Characters matched by the JavaScript regex class `\w` (word characters). -/
def isJsWordChar (c : Char) : Bool :=
  ('a' ≤ c && c ≤ 'z') || ('A' ≤ c && c ≤ 'Z') || ('0' ≤ c && c ≤ '9') || c = '_'

/-- ASCII lower-casing, as performed by a case-insensitive (`i`-flag)
JavaScript regex match over the ASCII sentiment vocabulary. -/
def toLowerAscii (c : Char) : Char :=
  if 'A' ≤ c && c ≤ 'Z' then Char.ofNat (c.toNat + 32) else c

/-- Scanner for `text.split(/\s+/)`.  `inWs` records whether the previous
character belonged to the current (greedy, maximal) whitespace-run
separator; `cur` accumulates the current piece in reverse.  Emitting the
piece when a run starts, skipping the rest of the run, and emitting the
final piece at the end reproduces JavaScript `String.prototype.split`,
including the empty pieces around leading/trailing separators. -/
def splitWsAux : List Char → Bool → List Char → List (List Char)
  | [], _, cur => [cur.reverse]
  | c :: rest, inWs, cur =>
    if jsIsSpace c then
      if inWs then splitWsAux rest true cur
      else cur.reverse :: splitWsAux rest true []
    else splitWsAux rest false (c :: cur)

/-- `text.split(/\s+/)`: split on maximal runs of whitespace, keeping the
(possibly empty) pieces before the first run and after the last run.
`"".split(/\s+/)` is `[""]`, so the result is never the empty list. -/
def splitWs (cs : List Char) : List (List Char) :=
  splitWsAux cs false []

/-- `text.split(/\s+/).length`, the word-count divisor of the sentiment scorer. -/
def wordCount (text : List Char) : Nat :=
  (splitWs text).length

/-- One match of the regex `\b<w>\b` (flags `gi`) at position `i` of `text`:
the slice of length `w.length` starting at `i` equals `w` up to ASCII case,
and both ends sit at a word boundary.  The vocabulary words consist of
letters only, so `\b`-delimited matches of one word can never overlap and
counting all matching positions equals the `g`-flag match count. -/
def matchesWordAt (text : List Char) (w : List Char) (i : Nat) : Bool :=
  (((text.drop i).take w.length).map toLowerAscii = w : Bool) &&
  (match text.get? (i - 1) with
   | some c => i = 0 || !isJsWordChar c
   | none => true) &&
  (match text.get? (i + w.length) with
   | some c => !isJsWordChar c
   | none => true)

/-- `(text.match(new RegExp("\\b" + word + "\\b", "gi")) || []).length`. -/
def countWordOccurrences (text : List Char) (w : List Char) : Nat :=
  ((List.range (text.length + 1)).filter (matchesWordAt text w)).length

/-- `words.reduce((count, word) => count + (text.match(...) || []).length, 0)`. -/
def countVocab (text : List Char) (vocab : List (List Char)) : Nat :=
  vocab.foldl (fun count w => count + countWordOccurrences text w) 0

/-- The fixed positive vocabulary of `performSentimentAnalysis`. -/
def positiveWords : List (List Char) :=
  ["innovative".toList, "growth".toList, "opportunity".toList, "leading".toList,
   "unique".toList, "efficient".toList, "scalable".toList, "profitable".toList,
   "success".toList]

/-- The fixed negative vocabulary of `performSentimentAnalysis`. -/
def negativeWords : List (List Char) :=
  ["challenge".toList, "risk".toList, "difficult".toList, "uncertain".toList,
   "competitive".toList, "costly".toList, "problem".toList, "threat".toList]

inductive Sentiment where
  | positive
  | neutral
  | negative
deriving DecidableEq, Repr

structure SentimentScores where
  positive : ℚ
  negative : ℚ
  neutral : ℚ
deriving DecidableEq, Repr

structure SentimentResult where
  overallSentiment : Sentiment
  sentimentScores : SentimentScores
deriving DecidableEq, Repr

/-- `performSentimentAnalysis` (src/api/generate-idea/route.ts:421-452).
`neutralCount = wordCount - positiveCount - negativeCount` is an integer in
JavaScript and may be negative, hence the `ℤ` cast before dividing. -/
def performSentimentAnalysis (text : List Char) : SentimentResult :=
  let wc : Nat := wordCount text
  let positiveCount : Nat := countVocab text positiveWords
  let negativeCount : Nat := countVocab text negativeWords
  let neutralCount : ℤ := (wc : ℤ) - positiveCount - negativeCount
  let positiveScore : ℚ := (positiveCount : ℚ) / (wc : ℚ)
  let negativeScore : ℚ := (negativeCount : ℚ) / (wc : ℚ)
  let neutralScore : ℚ := (neutralCount : ℚ) / (wc : ℚ)
  let overall : Sentiment :=
    if positiveScore > negativeScore ∧ positiveScore > neutralScore then .positive
    else if negativeScore > positiveScore ∧ negativeScore > neutralScore then .negative
    else .neutral
  ⟨overall, ⟨positiveScore, negativeScore, neutralScore⟩⟩

/-! ## Heuristic score calculator (`calculateScore`, src/api/generate-idea/route.ts:370-378) -/

/-- `Number(x.toFixed(2))`: rounding to two decimal places.  Every value this
pipeline rounds is an exact multiple of `1/20`, far from the sub-ulp
boundaries where `toFixed` on binary doubles deviates from exact decimal
rounding, so rounding the exact rational is faithful. -/
def round2 (q : ℚ) : ℚ :=
  (round (q * 100) : ℚ) / 100

/-- `calculateScore` inside `processPitchDeck`
(src/api/generate-idea/route.ts:370-374):
`baseScore = details.length > 0 ? 0.5 : 0`,
`bonus = Math.min(details.length * 0.1, 0.5)`,
`Number((baseScore + bonus).toFixed(2))`. -/
def calculateScore (details : List String) : ℚ :=
  let baseScore : ℚ := if details.length > 0 then 1/2 else 0
  let bonus : ℚ := min ((details.length : ℚ) * (1/10)) (1/2)
  round2 (baseScore + bonus)

/-- The scoring step of `processPitchDeck`
(src/api/generate-idea/route.ts:376-378): tech score, GTM score, and
`confidenceScore = Number(((techScore + gtmScore) / 2).toFixed(2))`. -/
def pitchDeckScores (techDetails gtmDetails : List String) : ℚ × ℚ × ℚ :=
  let techScore := calculateScore techDetails
  let gtmScore := calculateScore gtmDetails
  let confidenceScore := round2 ((techScore + gtmScore) / 2)
  (techScore, gtmScore, confidenceScore)

/-- The heuristic score as the spec words it (§4.4): base component (0.5 if
the list is non-empty, else 0) plus a bonus of `min(count × 0.1, 0.5)`,
rounded to two decimals.  Stated from the spec, to be compared with
`calculateScore`, which is translated from the source. -/
def heuristicScoreSpec (n : Nat) : ℚ :=
  round2 ((if 0 < n then 1/2 else 0) + min ((n : ℚ) * (1/10)) (1/2))

/-! ## `processPitchDeck` fallback (src/api/generate-idea/route.ts:317-419) -/

structure PitchDeckInfo where
  fundingRequirements : String
  techDetails : List String
  gtmDetails : List String
  marketSize : String
  competitiveAdvantage : String
  teamInfo : String
  businessModel : String
  revenueProjections : String
  customerBase : String
  teamSize : String
  overallSentiment : Sentiment
  sentimentScores : SentimentScores
  confidenceScore : ℚ
  techScore : ℚ
  gtmScore : ℚ
deriving DecidableEq, Repr

/-- The object returned by the `catch` branch of `processPitchDeck`
(src/api/generate-idea/route.ts:399-418). -/
def fallbackPitchDeckInfo : PitchDeckInfo where
  fundingRequirements := ""
  techDetails := ["Error processing pitch deck"]
  gtmDetails := ["Error processing pitch deck"]
  marketSize := "Error processing pitch deck"
  competitiveAdvantage := "Error processing pitch deck"
  teamInfo := "Error processing pitch deck"
  businessModel := "Error processing pitch deck"
  revenueProjections := "Error processing pitch deck"
  customerBase := "Error processing pitch deck"
  teamSize := "Error processing pitch deck"
  overallSentiment := .neutral
  sentimentScores := ⟨0, 0, 0⟩
  confidenceScore := 0
  techScore := 0
  gtmScore := 0

/-- The `try`/`catch` structure of `processPitchDeck`
(src/api/generate-idea/route.ts:317-419): the whole body runs inside `try`;
its outcome is either a `PitchDeckInfo` or a thrown error (`Except.error`,
covering whatever the JavaScript runtime may raise in any internal step),
and every thrown error is absorbed by the `catch`, which returns
`fallbackPitchDeckInfo` instead of propagating. -/
def processPitchDeckTry (bodyResult : Except String PitchDeckInfo) : PitchDeckInfo :=
  match bodyResult with
  | .ok info => info
  | .error _ => fallbackPitchDeckInfo

/-! ## Response validator (`POST`, src/api/generate-idea/route.ts:150-174) -/

/-- The parsed `investmentMemo` object; a sub-field the model omitted is
`undefined`, i.e. `none`. -/
structure Memo where
  summary : Option String
  marketOpportunity : Option String
  businessModel : Option String
  competitiveAdvantage : Option String
  financialProjections : Option String
  fundingRequirements : Option String
deriving DecidableEq, Repr

/-- The fields of the parsed LLM response that the validator block
(src/api/generate-idea/route.ts:153-171) reads or writes. -/
structure ParsedAnalysis where
  investmentMemo : Option Memo
  dueDiligenceTech : Option (List String)
  dueDiligenceGTM : Option (List String)
deriving DecidableEq, Repr

/-- The default memo installed when `parsedResponse.investmentMemo` is absent
(src/api/generate-idea/route.ts:155-162).  Its `fundingRequirements` is
`pitchDeckInfo.fundingRequirements || "Funding requirements not specified…"`;
`||` takes the fallback exactly when the extracted string is empty. -/
def defaultMemo (pitchDeckFunding : String) : Memo where
  summary := some "Investment memo not provided by AI. Please review the startup idea and generate a summary."
  marketOpportunity := some "Market opportunity analysis not provided. Review the target market and industry trends."
  businessModel := some "Business model description not provided. Consider how the startup will generate revenue."
  competitiveAdvantage := some "Competitive advantage not specified. Analyze what sets this startup apart from competitors."
  financialProjections := some "Financial projections not provided. Estimate potential revenue and growth based on the market size and business model."
  fundingRequirements := some (if pitchDeckFunding = "" then
    "Funding requirements not specified. Determine the capital needed to launch and grow the startup."
    else pitchDeckFunding)

/-- Default due-diligence tech list (src/api/generate-idea/route.ts:167). -/
def defaultDueDiligenceTech : List String :=
  ["Conduct a thorough review of the proposed technology stack",
   "Assess the scalability of the technical solution",
   "Evaluate the team's technical expertise"]

/-- Default due-diligence GTM list (src/api/generate-idea/route.ts:170). -/
def defaultDueDiligenceGTM : List String :=
  ["Analyze the go-to-market strategy",
   "Evaluate the customer acquisition plan",
   "Assess the sales and marketing approach"]

/-- The validator block (src/api/generate-idea/route.ts:153-171): a wholly
absent `investmentMemo` object, `dueDiligenceTech` list, or
`dueDiligenceGTM` list is replaced by its fixed default; a present object
passes through untouched (the `if (!parsedResponse.x)` tests see any present
object or array as truthy). -/
def validateResponse (pitchDeckFunding : String) (r : ParsedAnalysis) : ParsedAnalysis where
  investmentMemo := some (r.investmentMemo.getD (defaultMemo pitchDeckFunding))
  dueDiligenceTech := some (r.dueDiligenceTech.getD defaultDueDiligenceTech)
  dueDiligenceGTM := some (r.dueDiligenceGTM.getD defaultDueDiligenceGTM)

/-- Every sub-field of the memo is defined (not `undefined`). -/
def memoTotal (m : Memo) : Bool :=
  m.summary.isSome && m.marketOpportunity.isSome && m.businessModel.isSome &&
  m.competitiveAdvantage.isSome && m.financialProjections.isSome &&
  m.fundingRequirements.isSome

/-- The validated response has no undefined field, including memo sub-fields. -/
def analysisTotal (r : ParsedAnalysis) : Bool :=
  (match r.investmentMemo with
   | some m => memoTotal m
   | none => false) &&
  r.dueDiligenceTech.isSome && r.dueDiligenceGTM.isSome

/-! ## Weighted aggregator (src/app/api/generate-idea/route.ts:143-312,
second revision of the file) -/

/-- `normalizeScore` (src/app/api/generate-idea/route.ts:143-145):
`Math.min(Math.max(score, 0), 100)`. -/
def normalizeScore (score : ℚ) : ℚ :=
  min (max score 0) 100

/-- JavaScript addition on possibly-NaN numbers: `none` is NaN (or
`undefined` entering arithmetic), and any operation on NaN yields NaN. -/
def jsAdd : Option ℚ → Option ℚ → Option ℚ
  | some a, some b => some (a + b)
  | _, _ => none

/-- JavaScript multiplication on possibly-NaN numbers. -/
def jsMul : Option ℚ → Option ℚ → Option ℚ
  | some a, some b => some (a * b)
  | _, _ => none

/-- One entry of `dueDiligenceTech`/`dueDiligenceGTM` in the parsed LLM
response: `{point, score}`, where the `score` field may be absent or
non-numeric (`none`). -/
structure DDItem where
  point : String
  score : Option ℚ
deriving DecidableEq, Repr

/-- `items.reduce((sum, item) => sum + item.score, 0) / 3`
(src/app/api/generate-idea/route.ts:272-273): no guard on `item.score`, so
an absent score makes the sum NaN. -/
def ddScore (items : List DDItem) : Option ℚ :=
  (items.foldl (fun sum it => jsAdd sum it.score) (some 0)).map (· / 3)

/-- `Object.values(investmentMemoScores).reduce(...) / 6`
(src/app/api/generate-idea/route.ts:274-279): this reducer checks
`typeof score === 'number'` and skips non-numeric entries, so the result is
always a finite number. -/
def memoConfidence (vals : List (Option ℚ)) : ℚ :=
  (vals.foldl (fun sum v => match v with
    | some score => sum + score
    | none => sum) 0) / 6

structure Weights where
  tech : ℚ
  gtm : ℚ
  investmentMemo : ℚ
deriving DecidableEq, Repr

/-- `Partial<Weights>`: the user-supplied `customWeights`. -/
structure PartialWeights where
  tech : Option ℚ
  gtm : Option ℚ
  investmentMemo : Option ℚ
deriving DecidableEq, Repr

/-- The stage → default weight table (src/app/api/generate-idea/route.ts:288-300). -/
def stageWeights (startupStage : String) : Weights :=
  if startupStage = "early" then ⟨4/10, 3/10, 3/10⟩
  else if startupStage = "growth" then ⟨3/10, 4/10, 3/10⟩
  else if startupStage = "late" then ⟨2/10, 3/10, 5/10⟩
  else ⟨33/100, 33/100, 34/100⟩

/-- `weights = { ...weights, ...customWeights }`
(src/app/api/generate-idea/route.ts:303): a key present in `customWeights`
replaces the stage default; absent keys keep it.  No renormalization. -/
def applyCustomWeights (w : Weights) (custom : PartialWeights) : Weights where
  tech := custom.tech.getD w.tech
  gtm := custom.gtm.getD w.gtm
  investmentMemo := custom.investmentMemo.getD w.investmentMemo

/-- `calculateWeightedScore` (src/app/api/generate-idea/route.ts:153-156):
`scores.reduce((sum, score, i) => sum + score * weights[i], 0) / totalWeight`.
An index beyond `weights` reads `undefined` and poisons the sum to NaN,
as does any NaN score.  (JavaScript division by a zero total weight gives
±Infinity/NaN; every use in this file has a nonzero total weight.) -/
def calculateWeightedScore (scores : List (Option ℚ)) (weights : List ℚ) : Option ℚ :=
  let totalWeight : ℚ := weights.foldl (· + ·) 0
  (scores.enum.foldl
    (fun sum iscore => jsAdd sum (jsMul iscore.2 ((weights.get? iscore.1).map id)))
    (some 0)).map (· / totalWeight)

/-- The aggregator inputs read from the parsed LLM response and the form
(src/app/api/generate-idea/route.ts:165-166, 262-279).
`investmentMemoScores` holds `Object.values(parsedResponse.investmentMemoScores)`
in object order. -/
structure AggInput where
  dueDiligenceTech : List DDItem
  dueDiligenceGTM : List DDItem
  investmentMemoScores : List (Option ℚ)
  startupStage : String
  customWeights : PartialWeights
deriving DecidableEq, Repr

structure AggOutput where
  techScore : Option ℚ
  gtmScore : Option ℚ
  confidenceScore : ℚ
  globalScore : Option ℚ
  weights : Weights
deriving DecidableEq, Repr

/-- The score-aggregation tail of `POST`
(src/app/api/generate-idea/route.ts:271-312): sub-scores from the parsed
response, stage weights overridden by custom weights, weighted global score,
and the resolved weights attached to the response.  `normalizeScore` is
never applied anywhere in this computation. -/
def aggregateScores (inp : AggInput) : AggOutput :=
  let techScore := ddScore inp.dueDiligenceTech
  let gtmScore := ddScore inp.dueDiligenceGTM
  let confidenceScore := memoConfidence inp.investmentMemoScores
  let weights := applyCustomWeights (stageWeights inp.startupStage) inp.customWeights
  let globalScore := calculateWeightedScore
    [techScore, gtmScore, some confidenceScore]
    [weights.tech, weights.gtm, weights.investmentMemo]
  ⟨techScore, gtmScore, confidenceScore, globalScore, weights⟩

/-! ## `POST` handler control flow (src/api/generate-idea/route.ts:77-202) -/

inductive PostAction where
  | parseForm
  | extractFile
  | llmCall
deriving DecidableEq, Repr

/-- The request as the handler sees it: `formData.get` results (a missing
form field is `null`, i.e. `none`) and the lowercased extension of the
uploaded pitch-deck file, if any. -/
structure ApiRequest where
  query : Option String
  targetMarket : Option String
  pitchDeckExt : Option String
deriving DecidableEq, Repr

/-- The process environment and upstream behaviour: `OPENAI_API_KEY`
(`none` = absent, in which case the OpenAI client construction/call throws),
the completion content returned on success (`none` = non-string content),
and whether `JSON.parse` succeeds on that content. -/
structure LlmEnv where
  apiKey : Option String
  responseContent : Option String
  parseOk : Bool
deriving DecidableEq, Repr

/-- Control-flow skeleton of `POST` (src/api/generate-idea/route.ts:77-202),
returning the ordered list of work performed plus the HTTP status and error
body (the success body — the full validated, score-augmented response — is
abstracted to the raw completion content; only the error paths matter here).
There is no API-key check anywhere: the handler parses the form first, and
a missing key only surfaces when the LLM call throws, landing in the generic
`catch` (line 200) that answers 500 "Internal server error". -/
def postApiRoute (env : LlmEnv) (req : ApiRequest) : List PostAction × Nat × String :=
  match req.query, req.targetMarket with
  | some _, some _ =>
    let fileOk : Bool := match req.pitchDeckExt with
      | none => true
      | some ext => ext = "pdf" || ext = "pptx"
    if fileOk then
      let trace := [PostAction.parseForm] ++
        (match req.pitchDeckExt with
         | none => []
         | some _ => [PostAction.extractFile])
      match env.apiKey with
      | none => (trace ++ [PostAction.llmCall], 500, "Internal server error")
      | some _ =>
        match env.responseContent with
        | none => (trace ++ [PostAction.llmCall], 500, "Internal server error")
        | some content =>
          if env.parseOk then
            (trace ++ [PostAction.llmCall], 200, content)
          else
            (trace ++ [PostAction.llmCall], 500, "Invalid response from AI model")
    else ([PostAction.parseForm], 500, "Internal server error")
  | _, _ => ([PostAction.parseForm], 500, "Internal server error")

/-! ## Helper lemmas -/

theorem splitWsAux_ne_nil : ∀ (cs : List Char) (b : Bool) (cur : List Char),
    splitWsAux cs b cur ≠ [] := by
  intro cs
  induction cs with
  | nil => intro b cur; simp [splitWsAux]
  | cons c rest ih =>
    intro b cur
    simp only [splitWsAux]
    split
    · split
      · exact ih _ _
      · simp
    · exact ih _ _

theorem wordCount_pos (text : List Char) : 0 < wordCount text :=
  List.length_pos.mpr (splitWsAux_ne_nil text false [])

theorem round2_coe_div_ten (k : ℕ) : round2 ((k : ℚ) / 10) = (k : ℚ) / 10 := by
  unfold round2
  have h : ((k : ℚ) / 10) * 100 = ((k * 10 : ℕ) : ℚ) := by push_cast; ring
  rw [h, round_natCast]
  push_cast
  ring

/-- Closed form of the heuristic score: 0 on an empty list, 1 from five
lines on, `(5 + n)/10` in between. -/
theorem calculateScore_closed (details : List String) :
    calculateScore details =
      if details.length = 0 then 0
      else if 5 ≤ details.length then 1
      else (5 + (details.length : ℚ)) / 10 := by
  rw [show calculateScore details =
    round2 ((if details.length > 0 then (1 : ℚ)/2 else 0) +
      min ((details.length : ℚ) * (1/10)) (1/2)) from rfl]
  rcases Nat.eq_zero_or_pos details.length with h0 | hpos
  · rw [h0]
    norm_num [round2, round_eq]
  · rw [if_neg hpos.ne']
    rcases le_or_lt 5 details.length with h5 | h5
    · rw [if_pos h5, if_pos hpos]
      have hb : min ((details.length : ℚ) * (1 / 10)) (1 / 2) = 1 / 2 := by
        rw [min_eq_right]
        have h : (5 : ℚ) ≤ (details.length : ℚ) := by exact_mod_cast h5
        linarith
      rw [hb]
      norm_num [round2, round_eq]
    · rw [if_neg (not_le.mpr h5), if_pos hpos]
      have hb : min ((details.length : ℚ) * (1 / 10)) (1 / 2) =
          (details.length : ℚ) * (1 / 10) := by
        rw [min_eq_left]
        have : (details.length : ℚ) ≤ 4 := by
          exact_mod_cast Nat.lt_succ_iff.mp h5
        linarith
      rw [hb]
      have h : (1 : ℚ) / 2 + (details.length : ℚ) * (1 / 10) =
          ((5 + details.length : ℕ) : ℚ) / 10 := by push_cast; ring
      rw [h, round2_coe_div_ten]
      push_cast
      ring

/-! ## Claim theorems -/

/-- C10: for every input string, including the empty string, the word-count
divisor of `performSentimentAnalysis` is at least 1 — splitting on
whitespace never yields an empty array — so the three sentiment fractions
are always defined (the divisor is nonzero). -/
theorem C10_word_count_divisor_positive (text : List Char) :
    splitWs text ≠ [] ∧ 1 ≤ wordCount text ∧ ((wordCount text : ℚ) ≠ 0) :=
  ⟨splitWsAux_ne_nil text false [],
   wordCount_pos text,
   Nat.cast_ne_zero.mpr (wordCount_pos text).ne'⟩

/-- C9: `processPitchDeck` is total on its input: whatever error any internal
step throws, the `catch` returns the fixed fallback `PitchDeckInfo`
(placeholder strings, neutral sentiment, all scores 0) instead of
propagating it, and a successful body value passes through unchanged. -/
theorem C9_process_pitch_deck_fallback :
    (∀ e : String, processPitchDeckTry (.error e) = fallbackPitchDeckInfo) ∧
    (∀ info : PitchDeckInfo, processPitchDeckTry (.ok info) = info) ∧
    fallbackPitchDeckInfo.overallSentiment = Sentiment.neutral ∧
    fallbackPitchDeckInfo.sentimentScores = ⟨0, 0, 0⟩ ∧
    fallbackPitchDeckInfo.techScore = 0 ∧
    fallbackPitchDeckInfo.gtmScore = 0 ∧
    fallbackPitchDeckInfo.confidenceScore = 0 ∧
    fallbackPitchDeckInfo.techDetails = ["Error processing pitch deck"] :=
  ⟨fun _ => rfl, fun _ => rfl, rfl, rfl, rfl, rfl, rfl, rfl⟩

/-- C4 counterexample: an investment memo that is present but missing
sub-fields is passed through untouched by the validator, so the validated
response still has undefined fields — the claim that any missing
investment-memo sub-field is replaced by a placeholder is false. -/
theorem C4_partial_memo_not_backfilled_cex :
    (validateResponse ""
        ⟨some ⟨some "s", none, none, none, none, none⟩, some ["a"], some ["b"]⟩).investmentMemo
      = some ⟨some "s", none, none, none, none, none⟩ ∧
    analysisTotal (validateResponse ""
        ⟨some ⟨some "s", none, none, none, none, none⟩, some ["a"], some ["b"]⟩) = false := by
  constructor <;> rfl

/-- C4 amended: the validator replaces only a wholly missing `investmentMemo`
object or missing due-diligence list with its fixed placeholder; after it
runs, the three top-level fields are always defined, and when the memo was
wholly missing the installed default has every sub-field defined — but a
present partial memo keeps its undefined sub-fields. -/
theorem C4_validator_totalizes_missing_objects (fundingReq : String) (r : ParsedAnalysis) :
    ((validateResponse fundingReq r).investmentMemo).isSome ∧
    ((validateResponse fundingReq r).dueDiligenceTech).isSome ∧
    ((validateResponse fundingReq r).dueDiligenceGTM).isSome ∧
    (r.investmentMemo = none →
      (validateResponse fundingReq r).investmentMemo = some (defaultMemo fundingReq)) ∧
    (r.investmentMemo = none → r.dueDiligenceTech = none → r.dueDiligenceGTM = none →
      analysisTotal (validateResponse fundingReq r) = true) ∧
    (r.dueDiligenceTech = none →
      (validateResponse fundingReq r).dueDiligenceTech = some defaultDueDiligenceTech) ∧
    (r.dueDiligenceGTM = none →
      (validateResponse fundingReq r).dueDiligenceGTM = some defaultDueDiligenceGTM) := by
  obtain ⟨memo, ddt, ddg⟩ := r
  cases memo <;> cases ddt <;> cases ddg <;>
    simp [validateResponse, analysisTotal, memoTotal, defaultMemo]

/-- C4 amended witness: a response with everything missing validates to the
fully populated defaults. -/
theorem C4_validator_totalizes_missing_objects_witness :
    (validateResponse "" ⟨none, none, none⟩).investmentMemo = some (defaultMemo "") ∧
    analysisTotal (validateResponse "" ⟨none, none, none⟩) = true := by
  have h := C4_validator_totalizes_missing_objects "" ⟨none, none, none⟩
  exact ⟨h.2.2.2.1 rfl, h.2.2.2.2.1 rfl rfl rfl⟩

/-- C7: with `customWeights = { tech: 0.9 }` and stage `"early"`, the
aggregator resolves weights to tech 0.9 with the untouched stage defaults
gtm 0.3 and investmentMemo 0.3, uses them (unrenormalized) in the weighted
sum, and attaches the resolved weights to the response. -/
theorem C7_custom_weights_override (inp : AggInput)
    (hstage : inp.startupStage = "early")
    (hcustom : inp.customWeights = ⟨some (9/10), none, none⟩) :
    (aggregateScores inp).weights = ⟨9/10, 3/10, 3/10⟩ ∧
    (aggregateScores inp).globalScore =
      calculateWeightedScore
        [ddScore inp.dueDiligenceTech, ddScore inp.dueDiligenceGTM,
         some (memoConfidence inp.investmentMemoScores)]
        [9/10, 3/10, 3/10] := by
  simp [aggregateScores, hstage, hcustom, stageWeights, applyCustomWeights]

/-- C7 witness: concrete run with sub-scores 20/20/10, giving global score
`(20·0.9 + 20·0.3 + 10·0.3)/1.5 = 18` under the resolved weights. -/
theorem C7_custom_weights_override_witness :
    (aggregateScores ⟨[⟨"T1", some 60⟩], [⟨"G1", some 60⟩], [some 60], "early",
        ⟨some (9/10), none, none⟩⟩).weights = ⟨9/10, 3/10, 3/10⟩ ∧
    (aggregateScores ⟨[⟨"T1", some 60⟩], [⟨"G1", some 60⟩], [some 60], "early",
        ⟨some (9/10), none, none⟩⟩).globalScore = some 18 := by
  have h := C7_custom_weights_override
    ⟨[⟨"T1", some 60⟩], [⟨"G1", some 60⟩], [some 60], "early", ⟨some (9/10), none, none⟩⟩
    rfl rfl
  refine ⟨h.1, ?_⟩
  rw [h.2]
  simp [calculateWeightedScore, ddScore, memoConfidence, jsAdd, jsMul,
    List.enum, List.enumFrom]
  norm_num

/-- C5: the heuristic score of a list of extracted detail lines is the base
component (0.5 if non-empty, else 0) plus `min(count × 0.1, 0.5)`, rounded
to two decimals; it saturates at 1.0 from five lines on and is at least 0.5
on any non-empty list; the confidence score is the arithmetic mean of the
tech and GTM scores with the same rounding. -/
theorem C5_heuristic_score_formula (techDetails gtmDetails : List String) :
    (pitchDeckScores techDetails gtmDetails).1 = heuristicScoreSpec techDetails.length ∧
    (pitchDeckScores techDetails gtmDetails).2.1 = heuristicScoreSpec gtmDetails.length ∧
    (pitchDeckScores techDetails gtmDetails).2.2 =
      round2 ((heuristicScoreSpec techDetails.length +
               heuristicScoreSpec gtmDetails.length) / 2) ∧
    (5 ≤ techDetails.length → (pitchDeckScores techDetails gtmDetails).1 = 1) ∧
    (techDetails ≠ [] → 1/2 ≤ (pitchDeckScores techDetails gtmDetails).1) := by
  refine ⟨rfl, rfl, rfl, ?_, ?_⟩
  · intro h5
    show calculateScore techDetails = 1
    rw [calculateScore_closed, if_neg (by omega), if_pos h5]
  · intro hne
    have hpos : techDetails.length ≠ 0 := by
      simpa using List.length_pos.mpr hne |>.ne'
    show (1:ℚ)/2 ≤ calculateScore techDetails
    rw [calculateScore_closed, if_neg hpos]
    split_ifs
    · norm_num
    · rw [le_div_iff₀ (by norm_num : (0:ℚ) < 10)]
      have h0 : (0:ℚ) ≤ (techDetails.length : ℚ) := by positivity
      linarith

/-- C5 witness: five tech lines score exactly 1, and one GTM line scores at
least 0.5 (in fact 0.6). -/
theorem C5_heuristic_score_formula_witness :
    (pitchDeckScores ["a", "b", "c", "d", "e"] ["x"]).1 = 1 ∧
    (1:ℚ)/2 ≤ (pitchDeckScores ["a", "b", "c", "d", "e"] ["x"]).2.1 := by
  have h := C5_heuristic_score_formula ["a", "b", "c", "d", "e"] ["x"]
  have h' := C5_heuristic_score_formula ["x"] ["a", "b", "c", "d", "e"]
  exact ⟨h.2.2.2.1 (by norm_num), h'.2.2.2.2 (by simp)⟩

/-- C6: for every input list the heuristic score lies within [0, 1], and the
score is monotonically non-decreasing in list length. -/
theorem C6_heuristic_score_bounded_monotone (d1 d2 : List String) :
    0 ≤ calculateScore d1 ∧ calculateScore d1 ≤ 1 ∧
    (d1.length ≤ d2.length → calculateScore d1 ≤ calculateScore d2) := by
  rw [calculateScore_closed d1, calculateScore_closed d2]
  have hm0 : (0:ℚ) ≤ (d1.length : ℚ) := by positivity
  have hn0 : (0:ℚ) ≤ (d2.length : ℚ) := by positivity
  refine ⟨?_, ?_, ?_⟩
  · split_ifs
    · norm_num
    · norm_num
    · positivity
  · split_ifs with h1 h2
    · norm_num
    · norm_num
    · have h4 : (d1.length : ℚ) ≤ 4 := by exact_mod_cast (by omega : d1.length ≤ 4)
      rw [div_le_one (by norm_num : (0:ℚ) < 10)]
      linarith
  · intro hmn
    have hc : (d1.length : ℚ) ≤ (d2.length : ℚ) := by exact_mod_cast hmn
    split_ifs with h1 h2 h3 h4 h5 h6 h7 <;> try norm_num
    all_goals try positivity
    · exfalso; omega
    · exfalso; omega
    · exfalso; omega
    · have h4' : (d1.length : ℚ) ≤ 4 := by exact_mod_cast (by omega : d1.length ≤ 4)
      rw [div_le_one (by norm_num : (0:ℚ) < 10)]
      linarith
    · gcongr

/-- C6 witness: a one-line list scores 0.6, within [0, 1] and at most the
two-line score 0.7. -/
theorem C6_heuristic_score_bounded_monotone_witness :
    0 ≤ calculateScore ["a"] ∧ calculateScore ["a"] ≤ 1 ∧
    calculateScore ["a"] ≤ calculateScore ["a", "b"] := by
  have h := C6_heuristic_score_bounded_monotone ["a"] ["a", "b"]
  exact ⟨h.1, h.2.1, h.2.2 (by simp)⟩

/-- C3 counterexample: on the input `"growth-opportunity"` the scorer counts
two positive vocabulary matches inside a single whitespace-delimited word,
so the positive fraction is 2 (above 1) and the neutral fraction is −1
(below 0) — the claim that all three fractions lie within [0,1] is false. -/
theorem C3_sentiment_fraction_out_of_range_cex :
    (performSentimentAnalysis "growth-opportunity".toList).sentimentScores.neutral < 0 ∧
    1 < (performSentimentAnalysis "growth-opportunity".toList).sentimentScores.positive := by
  have hw : wordCount "growth-opportunity".toList = 1 := by decide
  have hp : countVocab "growth-opportunity".toList positiveWords = 2 := by decide
  have hn : countVocab "growth-opportunity".toList negativeWords = 0 := by decide
  simp only [performSentimentAnalysis, hw, hp, hn]
  norm_num

/-- C3 amended: the dominant label does equal the bucket with the strictly
greatest fraction, ties resolving to neutral; the positive and negative
fractions are nonnegative and the three fractions sum to 1.  All three
fractions lie within [0,1] exactly when the vocabulary-match total does not
exceed the word count — which can fail when one whitespace-delimited word
contains several vocabulary matches, making the positive or negative
fraction exceed 1 and the neutral fraction negative. -/
theorem C3_sentiment_scorer_amended (text : List Char) :
    ((performSentimentAnalysis text).sentimentScores.negative <
       (performSentimentAnalysis text).sentimentScores.positive ∧
     (performSentimentAnalysis text).sentimentScores.neutral <
       (performSentimentAnalysis text).sentimentScores.positive →
     (performSentimentAnalysis text).overallSentiment = Sentiment.positive) ∧
    ((performSentimentAnalysis text).sentimentScores.positive <
       (performSentimentAnalysis text).sentimentScores.negative ∧
     (performSentimentAnalysis text).sentimentScores.neutral <
       (performSentimentAnalysis text).sentimentScores.negative →
     (performSentimentAnalysis text).overallSentiment = Sentiment.negative) ∧
    (¬ ((performSentimentAnalysis text).sentimentScores.negative <
          (performSentimentAnalysis text).sentimentScores.positive ∧
        (performSentimentAnalysis text).sentimentScores.neutral <
          (performSentimentAnalysis text).sentimentScores.positive) →
     ¬ ((performSentimentAnalysis text).sentimentScores.positive <
          (performSentimentAnalysis text).sentimentScores.negative ∧
        (performSentimentAnalysis text).sentimentScores.neutral <
          (performSentimentAnalysis text).sentimentScores.negative) →
     (performSentimentAnalysis text).overallSentiment = Sentiment.neutral) ∧
    0 ≤ (performSentimentAnalysis text).sentimentScores.positive ∧
    0 ≤ (performSentimentAnalysis text).sentimentScores.negative ∧
    (performSentimentAnalysis text).sentimentScores.positive +
      (performSentimentAnalysis text).sentimentScores.negative +
      (performSentimentAnalysis text).sentimentScores.neutral = 1 ∧
    (countVocab text positiveWords + countVocab text negativeWords ≤ wordCount text →
      (performSentimentAnalysis text).sentimentScores.positive ≤ 1 ∧
      (performSentimentAnalysis text).sentimentScores.negative ≤ 1 ∧
      0 ≤ (performSentimentAnalysis text).sentimentScores.neutral ∧
      (performSentimentAnalysis text).sentimentScores.neutral ≤ 1) := by
  have hw : (0:ℚ) < (wordCount text : ℚ) := by exact_mod_cast wordCount_pos text
  simp only [performSentimentAnalysis]
  refine ⟨?_, ?_, ?_, ?_, ?_, ?_, ?_⟩
  · intro h
    split_ifs with h1
    · rfl
    · exact absurd h h1
  · intro h
    split_ifs with h1
    · exact absurd h.1 (lt_asymm h1.1)
    · rfl
  · intro ha hb
    split_ifs with h1
    · exact absurd h1 ha
    · rfl
  · positivity
  · positivity
  · have hne : (wordCount text : ℚ) ≠ 0 := hw.ne'
    push_cast
    field_simp
  · intro hle
    have hple : (countVocab text positiveWords : ℚ) ≤ (wordCount text : ℚ) := by
      exact_mod_cast (by omega : countVocab text positiveWords ≤ wordCount text)
    have hnle : (countVocab text negativeWords : ℚ) ≤ (wordCount text : ℚ) := by
      exact_mod_cast (by omega : countVocab text negativeWords ≤ wordCount text)
    have hsum : (countVocab text positiveWords : ℚ) +
        (countVocab text negativeWords : ℚ) ≤ (wordCount text : ℚ) := by
      exact_mod_cast hle
    have hp0 : (0:ℚ) ≤ (countVocab text positiveWords : ℚ) := by positivity
    have hn0 : (0:ℚ) ≤ (countVocab text negativeWords : ℚ) := by positivity
    refine ⟨?_, ?_, ?_, ?_⟩
    · rw [div_le_one hw]
      exact hple
    · rw [div_le_one hw]
      exact hnle
    · apply div_nonneg ?_ hw.le
      push_cast
      linarith
    · rw [div_le_one hw]
      push_cast
      linarith

/-- C3 amended witness: on `"growth risk"` the positive and negative counts
(1 and 1) do not exceed the word count (2), so all fractions are in [0,1],
and with the tie between positive (1/2) and negative (1/2) the dominant
label resolves to neutral. -/
theorem C3_sentiment_scorer_amended_witness :
    (performSentimentAnalysis "growth risk".toList).sentimentScores.positive ≤ 1 ∧
    0 ≤ (performSentimentAnalysis "growth risk".toList).sentimentScores.neutral ∧
    (performSentimentAnalysis "growth risk".toList).overallSentiment = Sentiment.neutral := by
  have h := C3_sentiment_scorer_amended "growth risk".toList
  have hw : wordCount "growth risk".toList = 2 := by decide
  have hp : countVocab "growth risk".toList positiveWords = 1 := by decide
  have hn : countVocab "growth risk".toList negativeWords = 1 := by decide
  have hle : countVocab "growth risk".toList positiveWords +
      countVocab "growth risk".toList negativeWords ≤ wordCount "growth risk".toList := by
    rw [hw, hp, hn]
  have hb := h.2.2.2.2.2.2 hle
  refine ⟨hb.1, hb.2.2.1, ?_⟩
  apply h.2.2.1
  · simp only [performSentimentAnalysis, hw, hp, hn]
    norm_num
  · simp only [performSentimentAnalysis, hw, hp, hn]
    norm_num

/-- C8 counterexample: with the API key absent and a well-formed request,
the handler still parses the form first, still attempts the outbound LLM
call, and answers the generic 500 "Internal server error" — not a
"not configured" response before parsing. -/
theorem C8_no_key_check_cex :
    postApiRoute ⟨none, none, true⟩ ⟨some "idea", some "devs", none⟩ =
      ([PostAction.parseForm, PostAction.llmCall], 500, "Internal server error") ∧
    PostAction.llmCall ∈ (postApiRoute ⟨none, none, true⟩ ⟨some "idea", some "devs", none⟩).1 ∧
    (postApiRoute ⟨none, none, true⟩ ⟨some "idea", some "devs", none⟩).2.2 ≠
      "Service not configured" := by
  refine ⟨rfl, ?_, ?_⟩ <;> simp [postApiRoute]

/-- C8 amended: the handler performs no API-key check at all; whenever the
key is absent it begins with form parsing and every outcome is the generic
500 "Internal server error" produced by the catch-all, never a dedicated
"not configured" short-circuit. -/
theorem C8_missing_key_generic_500 (env : LlmEnv) (req : ApiRequest)
    (hkey : env.apiKey = none) :
    (postApiRoute env req).1.head? = some PostAction.parseForm ∧
    (postApiRoute env req).2 = (500, "Internal server error") := by
  obtain ⟨key, rc, pk⟩ := env
  obtain ⟨q, tm, ext⟩ := req
  simp only at hkey
  subst hkey
  cases q <;> cases tm <;> cases ext
  all_goals simp [postApiRoute]
  all_goals split <;> simp

/-- C8 amended witness: concrete keyless request exercising the theorem. -/
theorem C8_missing_key_generic_500_witness :
    (postApiRoute ⟨none, some "{}", true⟩ ⟨some "q", some "m", some "pdf"⟩).1.head? =
      some PostAction.parseForm ∧
    (postApiRoute ⟨none, some "{}", true⟩ ⟨some "q", some "m", some "pdf"⟩).2 =
      (500, "Internal server error") :=
  C8_missing_key_generic_500 ⟨none, some "{}", true⟩ ⟨some "q", some "m", some "pdf"⟩ rfl

/-- C1: evaluation at the failing input.  When every sub-score parsed from
the LLM response is 150 (out of range on the percent scale) and the stage is
"early", the aggregator's global score is 150: the weighted sum is computed
but `normalizeScore` — which would clamp it to 100 — is never applied, so
the value returned to the client exceeds the declared maximum. -/
theorem C1_global_score_not_clamped :
    (aggregateScores ⟨[⟨"T1", some 150⟩, ⟨"T2", some 150⟩, ⟨"T3", some 150⟩],
        [⟨"G1", some 150⟩, ⟨"G2", some 150⟩, ⟨"G3", some 150⟩],
        [some 150, some 150, some 150, some 150, some 150, some 150],
        "early", ⟨none, none, none⟩⟩).globalScore = some 150 ∧
    normalizeScore 150 = 100 ∧ ¬ ((150:ℚ) ≤ 100) := by
  refine ⟨?_, ?_, by norm_num⟩
  · simp [aggregateScores, ddScore, memoConfidence, stageWeights, applyCustomWeights,
      calculateWeightedScore, jsAdd, jsMul, List.enum, List.enumFrom]
    norm_num
  · rw [normalizeScore]
    norm_num

/-- C2: evaluation at the failing input.  A due-diligence item whose `score`
field is absent is not treated as zero: the tech-score reducer adds
`undefined` and yields NaN (`none`), which propagates to the global score.
Only the investment-memo reducer guards against non-numeric entries (a
missing memo entry is skipped, leaving a finite confidence score), and a
present zero score would have produced the finite value 0. -/
theorem C2_missing_score_yields_nan :
    (aggregateScores ⟨[⟨"T1", none⟩], [⟨"G1", some 50⟩], [some 50, none], "early",
        ⟨none, none, none⟩⟩).techScore = none ∧
    (aggregateScores ⟨[⟨"T1", none⟩], [⟨"G1", some 50⟩], [some 50, none], "early",
        ⟨none, none, none⟩⟩).globalScore = none ∧
    ddScore [⟨"T1", some 0⟩] = some 0 ∧
    memoConfidence [some 50, none] = 25/3 := by
  refine ⟨rfl, rfl, ?_, ?_⟩
  · simp [ddScore, jsAdd]
  · rw [memoConfidence]
    norm_num

end CodeberryModel
